import Mathlib

/-!
Shallow embedding of the coco-neo4j-backup pipeline (fleet.go and the main
backup file). External effects — fleet API calls, rsync invocations, the
S3 copy, stream closes, structured error logs, process exit — are recorded
as events in a trace; the outcomes of the external world (fleet roster,
rsync results, copy result, constructor failures) are supplied by an
environment record. Each Go function becomes a Lean function returning its
Go return value together with the list of events it emits, in order.
-/

/-- Errors are represented by their message; `Option Err` models the Go
`error` return (`none` = nil). -/
abbrev Err := String

/-- One entry of the fleet unit-state roster (schema.UnitState fields the
code reads). -/
structure UnitState where
  name : String
  systemdActiveState : String
  systemdLoadState : String
deriving DecidableEq

/-- Observable events of a run, in program order. -/
inductive Event where
  | unitStatesCall
  | setUnitTarget (name target : String)
  | rsyncCall
  | createBackupCall
  | copyCall
  | closeSink
  | closeSource
  | newFleetClientCall
  | newBucketWriterCall
  | errorLog
  | validateEnvironmentCall
  | exited (code : Nat)
deriving DecidableEq

/-- Behaviour of the fleet API (the fleetAPI interface): the roster the
`UnitStates` call returns (or its error), and the error result of
`SetUnitTargetState` per (name, target) pair. -/
structure FleetBehavior where
  unitStates : Except Err (List UnitState)
  setUnitTargetState : String → String → Option Err

/-- The linear scan done by the for-loop of isServiceActive: first entry whose name
matches wins (the loop breaks there). -/
def findUnit (serviceName : String) : List UnitState → Option UnitState
  | [] => none
  | u :: rest => if u.name == serviceName then some u else findUnit serviceName rest

/-- isServiceActive (fleet.go): query all unit states; on roster error
return (false, err) after an error log; otherwise scan for the first
name match and report whether its SystemdActiveState is "active"; an
absent name yields (false, nil) (logged as a warning only). -/
def isServiceActive (fleetClient : FleetBehavior) (serviceName : String) :
    (Bool × Option Err) × List Event :=
  match fleetClient.unitStates with
  | .error err => ((false, some err), [.unitStatesCall, .errorLog])
  | .ok unitStates =>
    match findUnit serviceName unitStates with
    | some u => ((u.systemdActiveState == "active", none), [.unitStatesCall])
    | none => ((false, none), [.unitStatesCall])

/-- setTargetState (fleet.go): issue SetUnitTargetState and return its
error; an error is logged as Error, success as Info. -/
def setTargetState (fleetClient : FleetBehavior) (serviceName targetState : String) :
    Option Err × List Event :=
  match fleetClient.setUnitTargetState serviceName targetState with
  | some e => (some e, [.setUnitTarget serviceName targetState, .errorLog])
  | none => (none, [.setUnitTarget serviceName targetState])

/-- shutDownNeo (fleet.go): check the deployer; if it is active or the
check errored, log and return an error (the roster error if there was
one, otherwise a fresh error) without touching any unit; otherwise
request "inactive" for neo4j-red@1.service and return the result of
that request. -/
def shutDownNeo (fleetClient : FleetBehavior) : Option Err × List Event :=
  let deployerServiceName := "deployer.service"
  let res := isServiceActive fleetClient deployerServiceName
  let isDeployerActive := res.1.1
  let err := res.1.2
  if isDeployerActive || err.isSome then
    match err with
    | some e => (some e, res.2 ++ [.errorLog])
    | none =>
      (some "Problem: either the deployer is still active, or there was a problem checking its status.",
        res.2 ++ [.errorLog])
  else
    let serviceName := "neo4j-red@1.service"
    let r := setTargetState fleetClient serviceName "inactive"
    (r.1, res.2 ++ r.2)

/-- startNeo (fleet.go): request "launched" for neo4j-red@1.service,
discard the result, and return nil unconditionally. -/
def startNeo (fleetClient : FleetBehavior) : Option Err × List Event :=
  let serviceName := "neo4j-red@1.service"
  let r := setTargetState fleetClient serviceName "launched"
  (none, r.2)

/-- Outcomes of the external world consumed by runInner: the fleet
behaviour, the results of the two possible hot rsync attempts and of the
cold rsync, of createBackup, and of the io.Copy inside uploadToS3. -/
structure Env where
  fleet : FleetBehavior
  hotSync1 : Option Err
  hotSync2 : Option Err
  coldSync : Option Err
  createBackupResult : Option Err
  copyResult : Option Err

/-- uploadToS3: `defer bucketWriter.Close()` runs on every exit path, last;
on a copy error the function logs and returns the error before reaching
`pipeReader.Close()`; on success it closes the pipe reader and returns
nil. -/
def uploadToS3 (copyResult : Option Err) : Option Err × List Event :=
  match copyResult with
  | some e => (some e, [.copyCall, .errorLog, .closeSink])
  | none => (none, [.copyCall, .closeSource, .closeSink])

/-- runInner: hot rsync (retried once on failure, outcome then ignored),
shutDownNeo (error fatal), cold rsync (error fatal), startNeo (error
fatal — dead branch, startNeo never errors), createBackup (error fatal),
uploadToS3 (error fatal), validateEnvironment. -/
def runInner (env : Env) : Option Err × List Event :=
  let hotTrace :=
    match env.hotSync1 with
    | none => [Event.rsyncCall]
    | some _ =>
      match env.hotSync2 with
      | none => [Event.rsyncCall, Event.rsyncCall]
      | some _ => [Event.rsyncCall, Event.rsyncCall]
  let s := shutDownNeo env.fleet
  match s.1 with
  | some e => (some e, hotTrace ++ s.2 ++ [.errorLog])
  | none =>
    let tr1 := hotTrace ++ s.2
    match env.coldSync with
    | some e => (some e, tr1 ++ [.rsyncCall, .errorLog])
    | none =>
      let tr2 := tr1 ++ [Event.rsyncCall]
      let st := startNeo env.fleet
      match st.1 with
      | some e => (some e, tr2 ++ st.2 ++ [.errorLog])
      | none =>
        let tr3 := tr2 ++ st.2
        match env.createBackupResult with
        | some e => (some e, tr3 ++ [.createBackupCall, .errorLog])
        | none =>
          let tr4 := tr3 ++ [Event.createBackupCall]
          let up := uploadToS3 env.copyResult
          match up.1 with
          | some e => (some e, tr4 ++ up.2 ++ [.errorLog])
          | none => (none, tr4 ++ up.2 ++ [.validateEnvironmentCall])

/-- A wall-clock instant as the Go format layout reads it. -/
structure GoTime where
  year : Nat
  month : Nat
  day : Nat
  hour : Nat
  minute : Nat
  second : Nat
deriving DecidableEq

/-- Two-digit zero padding, as the Go "01"/"02"/"15"/"04"/"05" layout
components render. -/
def pad2 (n : Nat) : String :=
  if n < 10 then "0" ++ toString n else toString n

/-- Four-digit zero padding, as the Go "2006" layout component renders. -/
def pad4 (n : Nat) : String :=
  if n < 10 then "000" ++ toString n
  else if n < 100 then "00" ++ toString n
  else if n < 1000 then "0" ++ toString n
  else toString n

/-- time.Format(archiveNameDateFormat) with
archiveNameDateFormat = "2006-01-02T15-04-05". -/
def formatArchiveDate (t : GoTime) : String :=
  pad4 t.year ++ "-" ++ pad2 t.month ++ "-" ++ pad2 t.day ++ "T" ++
    pad2 t.hour ++ "-" ++ pad2 t.minute ++ "-" ++ pad2 t.second

/-- The fmt.Sprintf in runOuter:
"neo4j_backup_%s_%s.tar.gz" with the formatted UTC time and the
environment tag. -/
def archiveName (now : GoTime) (env : String) : String :=
  "neo4j_backup_" ++ formatArchiveDate now ++ "_" ++ env ++ ".tar.gz"

/-- The archive-name layout as the spec words it: the service name
("neo4j"), "_backup_", the UTC timestamp formatted YYYY-MM-DDTHH-MM-SS,
an underscore, the environment tag, and the ".tar.gz" suffix. -/
def specArchiveName (t : GoTime) (envTag : String) : String :=
  "neo4j" ++ "_backup_" ++
    (pad4 t.year ++ "-" ++ pad2 t.month ++ "-" ++ pad2 t.day ++ "T" ++
      pad2 t.hour ++ "-" ++ pad2 t.minute ++ "-" ++ pad2 t.second) ++
    "_" ++ envTag ++ ".tar.gz"

/-- Outcomes of the external world consumed by runOuter and main. -/
structure OuterEnv where
  fleetClientResult : Except Err FleetBehavior
  bucketWriterResult : Option Err
  hotSync1 : Option Err
  hotSync2 : Option Err
  coldSync : Option Err
  createBackupResult : Option Err
  copyResult : Option Err
  now : GoTime
  envTag : String

/-- The inner environment runOuter hands to runInner. -/
def OuterEnv.inner (o : OuterEnv) (fleetClient : FleetBehavior) : Env :=
  ⟨fleetClient, o.hotSync1, o.hotSync2, o.coldSync, o.createBackupResult, o.copyResult⟩

/-- runOuter: build the fleet client (error fatal, logged), compute the
archive name, build the bucket writer (error fatal, logged both inside
newBucketWriter and in runOuter), then run runInner. -/
def runOuter (o : OuterEnv) : Option Err × List Event :=
  match o.fleetClientResult with
  | .error e => (some e, [.newFleetClientCall, .errorLog])
  | .ok fleetClient =>
    match o.bucketWriterResult with
    | some e => (some e, [.newFleetClientCall, .newBucketWriterCall, .errorLog, .errorLog])
    | none =>
      let r := runInner (o.inner fleetClient)
      (r.1, [.newFleetClientCall, .newBucketWriterCall] ++ r.2)

/-- The cli action of main: run runOuter; on error call os.Exit(1), otherwise
return nil and let the process exit 0. The first component is the process
exit status. -/
def mainRun (o : OuterEnv) : Nat × List Event :=
  let r := runOuter o
  match r.1 with
  | some _ => (1, r.2 ++ [.exited 1])
  | none => (0, r.2 ++ [.exited 0])

/-- Number of hot rsync attempts runInner makes: one when the first
succeeds, two otherwise. -/
def hotAttempts (env : Env) : Nat :=
  match env.hotSync1 with
  | none => 1
  | some _ => 2

/-- Env with the hot-sync outcomes replaced. -/
def setHot (env : Env) (h1 h2 : Option Err) : Env :=
  ⟨env.fleet, h1, h2, env.coldSync, env.createBackupResult, env.copyResult⟩

/-- The trace of isServiceActive is the roster call, followed by an error
log exactly when the roster query failed. -/
theorem isServiceActive_trace (f : FleetBehavior) (s : String) :
    (isServiceActive f s).2 = [Event.unitStatesCall] ∨
    (isServiceActive f s).2 = [Event.unitStatesCall, Event.errorLog] := by
  rcases hu : f.unitStates with e | units
  · simp [isServiceActive, hu]
  · rcases hf : findUnit s units with _ | u <;> simp [isServiceActive, hu, hf]

/-- When isServiceActive reports no error its trace is exactly the roster
call. -/
theorem isServiceActive_ok_trace (f : FleetBehavior) (s : String)
    (h : (isServiceActive f s).1.2 = none) :
    (isServiceActive f s).2 = [Event.unitStatesCall] := by
  rcases hu : f.unitStates with e | units
  · simp [isServiceActive, hu] at h
  · rcases hf : findUnit s units with _ | u <;> simp [isServiceActive, hu, hf]

/-- setTargetState emits the target-state request, followed by an error
log exactly when the request failed. -/
theorem setTargetState_trace (f : FleetBehavior) (n t : String) :
    (setTargetState f n t).2 = [Event.setUnitTarget n t] ∨
    (setTargetState f n t).2 = [Event.setUnitTarget n t, Event.errorLog] := by
  rcases hr : f.setUnitTargetState n t with _ | e <;> simp [setTargetState, hr]

/-- The linear scan agrees with List.find? on the name predicate. -/
theorem findUnit_eq_find (s : String) (l : List UnitState) :
    findUnit s l = l.find? (fun u => u.name == s) := by
  induction l with
  | nil => rfl
  | cons u rest ih =>
    by_cases h : (u.name == s) = true
    · simp [findUnit, h, List.find?_cons_of_pos]
    · simp [findUnit, h, List.find?_cons_of_neg, ih]

def c2Units : List UnitState :=
  [⟨"a.service", "inactive", "loaded"⟩, ⟨"a.service", "active", "loaded"⟩]

def c2Fleet : FleetBehavior := ⟨.ok c2Units, fun _ _ => none⟩

/-- C2 counterexample: a roster holding two entries named "a.service",
the first inactive and the second active. The roster query succeeds and
the roster contains an entry named "a.service" whose active-state is
"active", yet isServiceActive returns false: the claimed
"true iff R contains an active entry named N" fails, because the scan
stops at the first name match. -/
theorem C2_counterexample :
    c2Fleet.unitStates = .ok c2Units ∧
    (UnitState.mk "a.service" "active" "loaded") ∈ c2Units ∧
    (isServiceActive c2Fleet "a.service").1.1 = false := by
  refine ⟨rfl, by decide, by decide⟩

/-- C2 (amended): when the roster query succeeds, isServiceActive returns
true iff the FIRST roster entry named N has active-state "active"
(List.find? on the name); and when no entry is named N it returns
(false, nil). -/
theorem C2_isServiceActive_first_match (fleetClient : FleetBehavior)
    (units : List UnitState) (serviceName : String)
    (h : fleetClient.unitStates = .ok units) :
    ((isServiceActive fleetClient serviceName).1.1 = true ↔
      ∃ u, units.find? (fun v => v.name == serviceName) = some u ∧
        u.systemdActiveState = "active")
    ∧ ((∀ u ∈ units, u.name ≠ serviceName) →
      (isServiceActive fleetClient serviceName).1 = (false, none)) := by
  constructor
  · simp only [isServiceActive, h, findUnit_eq_find]
    rcases hf : units.find? (fun v => v.name == serviceName) with _ | u
    · simp [hf]
    · simp [hf]
  · intro habs
    have hf : units.find? (fun v => v.name == serviceName) = none := by
      rw [List.find?_eq_none]
      intro u hu
      simpa using habs u hu
    simp [isServiceActive, h, findUnit_eq_find, hf]

/-- C2 witness input for the amended theorem. -/
theorem C2_isServiceActive_first_match_witness :
    ((isServiceActive c2Fleet "a.service").1.1 = true ↔
      ∃ u, c2Units.find? (fun v => v.name == "a.service") = some u ∧
        u.systemdActiveState = "active")
    ∧ ((∀ u ∈ c2Units, u.name ≠ "a.service") →
      (isServiceActive c2Fleet "a.service").1 = (false, none)) :=
  C2_isServiceActive_first_match c2Fleet c2Units "a.service" rfl

def c5Fleet : FleetBehavior :=
  ⟨.ok [], fun _ target => if target == "launched" then some "boom" else none⟩

def c5Env : Env := ⟨c5Fleet, none, none, none, none, none⟩

/-- C5 (code bug evidence): a fleet whose SetUnitTargetState fails for the
"launched" request. startNeo discards that error and returns nil, so
runInner proceeds past the restart step and reaches archive creation,
contradicting the claimed transition to the failed state. -/
theorem C5_start_failure_ignored :
    c5Fleet.setUnitTargetState "neo4j-red@1.service" "launched" = some "boom" ∧
    (startNeo c5Fleet).1 = none ∧
    (runInner c5Env).1 = none ∧
    Event.createBackupCall ∈ (runInner c5Env).2 := by
  refine ⟨rfl, rfl, by decide, by decide⟩

/-- C6: on every exit path of uploadToS3 — copy success (which also covers
a source that produces no data) and copy failure — the sink handle is
closed exactly once, by the deferred Close, as the final action before
the function returns. -/
theorem C6_sink_closed_once (copyResult : Option Err) :
    (uploadToS3 copyResult).2.count Event.closeSink = 1 ∧
    (uploadToS3 copyResult).2.getLast? = some Event.closeSink := by
  rcases copyResult with _ | e <;> simp [uploadToS3]

/-- C7 counterexample: when io.Copy fails, uploadToS3 returns the error
before the pipeReader.Close() line, so the source stream is NOT closed —
the claim that closeSource is reached on both outcomes fails. -/
theorem C7_counterexample :
    (uploadToS3 (some "copy failed")).1 = some "copy failed" ∧
    Event.closeSource ∉ (uploadToS3 (some "copy failed")).2 := by
  decide

/-- C7 (amended): uploadToS3 closes the source stream iff the copy
succeeds; on a copy error it returns without ever closing the
pipe reader (only the deferred sink close runs). -/
theorem C7_source_closed_iff_copy_ok (copyResult : Option Err) :
    Event.closeSource ∈ (uploadToS3 copyResult).2 ↔ copyResult = none := by
  rcases copyResult with _ | e <;> simp [uploadToS3]

/-- C8: the generated archive name follows the literal layout
<service>_backup_<UTC timestamp YYYY-MM-DDTHH-MM-SS>_<environment
tag>.tar.gz; checked against the spec-side layout definition for all
times and tags, and evaluated at a sample instant. -/
theorem C8_archive_name_layout :
    (∀ (t : GoTime) (envTag : String), archiveName t envTag = specArchiveName t envTag) ∧
    archiveName ⟨2016, 3, 9, 14, 5, 7⟩ "prod" =
      "neo4j_backup_2016-03-09T14-05-07_prod.tar.gz" := by
  constructor
  · intro t envTag
    simp [archiveName, specArchiveName, formatArchiveDate]
  · decide

/-- When shutDownNeo returns nil, its trace is exactly the roster
observation followed by the successful "inactive" request. -/
theorem shutDownNeo_ok_trace (f : FleetBehavior)
    (h : (shutDownNeo f).1 = none) :
    (shutDownNeo f).2 =
      [Event.unitStatesCall, Event.setUnitTarget "neo4j-red@1.service" "inactive"] := by
  rcases hIs : isServiceActive f "deployer.service" with ⟨⟨b, err⟩, tr⟩
  have htr1 : err = none → tr = [Event.unitStatesCall] := by
    intro he
    have h2 := isServiceActive_ok_trace f "deployer.service" (by rw [hIs, he])
    rw [hIs] at h2
    exact h2
  rcases err with _ | e
  · rcases b with _ | _
    · rcases hr : f.setUnitTargetState "neo4j-red@1.service" "inactive" with _ | e2
      · simp [shutDownNeo, hIs, setTargetState, hr, htr1 rfl]
      · simp [shutDownNeo, hIs, setTargetState, hr] at h
    · simp [shutDownNeo, hIs] at h
  · simp [shutDownNeo, hIs] at h

/-- C1: a stop request for neo4j-red@1.service is issued only after an
error-free observation that deployer.service is inactive (the roster
observation opens the trace); and whenever the deployer is observed
active or the roster query errors, shutDownNeo returns a non-nil error
without issuing any SetUnitTargetState request. -/
theorem C1_shutDownNeo_fail_closed (fleetClient : FleetBehavior) :
    (Event.setUnitTarget "neo4j-red@1.service" "inactive" ∈ (shutDownNeo fleetClient).2 →
      (isServiceActive fleetClient "deployer.service").1 = (false, none) ∧
      ∃ rest, (shutDownNeo fleetClient).2 = Event.unitStatesCall :: rest)
    ∧ (((isServiceActive fleetClient "deployer.service").1.1 = true ∨
        (isServiceActive fleetClient "deployer.service").1.2.isSome = true) →
      (shutDownNeo fleetClient).1.isSome = true ∧
        ∀ n t, Event.setUnitTarget n t ∉ (shutDownNeo fleetClient).2) := by
  rcases hIs : isServiceActive fleetClient "deployer.service" with ⟨⟨b, err⟩, tr⟩
  have htr : tr = [Event.unitStatesCall] ∨ tr = [Event.unitStatesCall, Event.errorLog] := by
    have h := isServiceActive_trace fleetClient "deployer.service"
    rw [hIs] at h
    exact h
  rcases err with _ | e
  · rcases b with _ | _
    · have htr1 : tr = [Event.unitStatesCall] := by
        have h := isServiceActive_ok_trace fleetClient "deployer.service" (by rw [hIs])
        rw [hIs] at h
        exact h
      constructor
      · intro _
        refine ⟨rfl, ?_⟩
        exact ⟨(setTargetState fleetClient "neo4j-red@1.service" "inactive").2,
          by simp [shutDownNeo, hIs, htr1]⟩
      · intro h
        simp at h
    · constructor
      · intro hmem
        exfalso
        rcases htr with h1 | h1 <;> simp [shutDownNeo, hIs, h1] at hmem
      · intro _
        refine ⟨by simp [shutDownNeo, hIs], ?_⟩
        intro n t hmem
        rcases htr with h1 | h1 <;> simp [shutDownNeo, hIs, h1] at hmem
  · constructor
    · intro hmem
      exfalso
      rcases htr with h1 | h1 <;> simp [shutDownNeo, hIs, h1] at hmem
    · intro _
      refine ⟨by simp [shutDownNeo, hIs], ?_⟩
      intro n t hmem
      rcases htr with h1 | h1 <;> simp [shutDownNeo, hIs, h1] at hmem

def c1FleetBlocked : FleetBehavior :=
  ⟨.ok [⟨"deployer.service", "active", "loaded"⟩], fun _ _ => none⟩

def c1FleetClear : FleetBehavior :=
  ⟨.ok [], fun _ _ => none⟩

/-- C1 witness: with the deployer observed active, shutDownNeo errors and
issues no target-state request; with a clear roster (deployer absent,
observed inactive without error), the stop request appears and the trace
opens with the roster observation. -/
theorem C1_shutDownNeo_fail_closed_witness :
    ((isServiceActive c1FleetClear "deployer.service").1 = (false, none) ∧
      ∃ rest, (shutDownNeo c1FleetClear).2 = Event.unitStatesCall :: rest) ∧
    ((shutDownNeo c1FleetBlocked).1.isSome = true ∧
      ∀ n t, Event.setUnitTarget n t ∉ (shutDownNeo c1FleetBlocked).2) :=
  ⟨(C1_shutDownNeo_fail_closed c1FleetClear).1 (by decide),
   (C1_shutDownNeo_fail_closed c1FleetBlocked).2 (Or.inl (by decide))⟩

/-- C3: once shutDownNeo has succeeded, the cold rsync is attempted
exactly once in the whole run (the rsync count is the hot attempts plus
one), and if it fails runInner returns that error with no start request,
no archive creation and no upload in the trace. -/
theorem C3_cold_sync_once_fatal (env : Env)
    (hshut : (shutDownNeo env.fleet).1 = none) :
    (runInner env).2.count Event.rsyncCall = hotAttempts env + 1 ∧
    (∀ e, env.coldSync = some e →
      (runInner env).1 = some e ∧
      Event.setUnitTarget "neo4j-red@1.service" "launched" ∉ (runInner env).2 ∧
      Event.createBackupCall ∉ (runInner env).2 ∧
      Event.copyCall ∉ (runInner env).2) := by
  have hst := shutDownNeo_ok_trace env.fleet hshut
  rcases hL : setTargetState env.fleet "neo4j-red@1.service" "launched" with ⟨lres, ltr⟩
  have hltr : ltr = [Event.setUnitTarget "neo4j-red@1.service" "launched"] ∨
      ltr = [Event.setUnitTarget "neo4j-red@1.service" "launched", Event.errorLog] := by
    have h := setTargetState_trace env.fleet "neo4j-red@1.service" "launched"
    rw [hL] at h
    simpa using h
  rcases h1 : env.hotSync1 with _ | e1 <;>
    rcases h2 : env.hotSync2 with _ | e2 <;>
      rcases hc : env.coldSync with _ | ec <;>
        rcases hcb : env.createBackupResult with _ | eb <;>
          rcases hcp : env.copyResult with _ | ep <;>
            rcases hltr with hltr | hltr <;>
              simp [runInner, hotAttempts, hshut, hst, h1, h2, hc, hcb, hcp,
                startNeo, hL, hltr, uploadToS3, List.count_cons, List.count_append]

def c3Env : Env :=
  ⟨⟨.ok [], fun _ _ => none⟩, none, none, some "cold failed", none, none⟩

/-- C3 witness: a run whose shutdown succeeds and whose cold rsync fails
with "cold failed". -/
theorem C3_cold_sync_once_fatal_witness :
    (runInner c3Env).2.count Event.rsyncCall = hotAttempts c3Env + 1 ∧
    ((runInner c3Env).1 = some "cold failed" ∧
      Event.setUnitTarget "neo4j-red@1.service" "launched" ∉ (runInner c3Env).2 ∧
      Event.createBackupCall ∉ (runInner c3Env).2 ∧
      Event.copyCall ∉ (runInner c3Env).2) := by
  have h : (shutDownNeo c3Env.fleet).1 = none := by decide
  exact ⟨(C3_cold_sync_once_fatal c3Env h).1,
    (C3_cold_sync_once_fatal c3Env h).2 "cold failed" rfl⟩

/-- startNeo returns nil whatever the fleet does (fleet.go discards the
SetUnitTargetState result). -/
theorem startNeo_fst (f : FleetBehavior) : (startNeo f).1 = none := rfl

/-- C4: the trace of every run opens with the hot rsync attempts — one if
the first succeeds, two if it fails (exactly one retry) — directly
followed by the shutDownNeo safety check, whatever the hot outcomes; and
the error runInner returns is unchanged under any replacement of the two
hot-sync outcomes, so no hot-sync outcome makes runInner fail. -/
theorem C4_hot_sync_retry_nonfatal (env : Env) (h1 h2 : Option Err) :
    (∃ rest, (runInner env).2 =
      List.replicate (hotAttempts env) Event.rsyncCall ++
        (shutDownNeo env.fleet).2 ++ rest) ∧
    (runInner (setHot env h1 h2)).1 = (runInner env).1 := by
  constructor
  · rcases hh1 : env.hotSync1 with _ | e1 <;>
      rcases hh2 : env.hotSync2 with _ | e2 <;>
        rcases hs : (shutDownNeo env.fleet).1 with _ | es
    case' none.none.none | none.some.none | some.none.none | some.some.none =>
      rcases hc : env.coldSync with _ | ec
      case' none =>
        rcases hcb : env.createBackupResult with _ | eb
        case' none =>
          rcases hcp : env.copyResult with _ | ep
          case' none =>
            exact ⟨[Event.rsyncCall] ++ (startNeo env.fleet).2 ++ [Event.createBackupCall] ++
              [Event.copyCall, Event.closeSource, Event.closeSink] ++ [Event.validateEnvironmentCall],
              by simp [runInner, hotAttempts, hh1, hh2, hs, hc, hcb, hcp, uploadToS3, startNeo_fst]⟩
          case' some =>
            exact ⟨[Event.rsyncCall] ++ (startNeo env.fleet).2 ++ [Event.createBackupCall] ++
              [Event.copyCall, Event.errorLog, Event.closeSink] ++ [Event.errorLog],
              by simp [runInner, hotAttempts, hh1, hh2, hs, hc, hcb, hcp, uploadToS3, startNeo_fst]⟩
        case' some =>
          exact ⟨[Event.rsyncCall] ++ (startNeo env.fleet).2 ++
            [Event.createBackupCall, Event.errorLog],
            by simp [runInner, hotAttempts, hh1, hh2, hs, hc, hcb, startNeo_fst]⟩
      case' some =>
        exact ⟨[Event.rsyncCall, Event.errorLog],
          by simp [runInner, hotAttempts, hh1, hh2, hs, hc]⟩
    case' none.none.some | none.some.some | some.none.some | some.some.some =>
      exact ⟨[Event.errorLog], by simp [runInner, hotAttempts, hh1, hh2, hs]⟩
  · rcases hs : (shutDownNeo env.fleet).1 with _ | es <;>
      rcases hc : env.coldSync with _ | ec <;>
        rcases hcb : env.createBackupResult with _ | eb <;>
          rcases hcp : env.copyResult with _ | ep <;>
            simp [runInner, setHot, hs, hc, hcb, hcp, uploadToS3, startNeo_fst]

/-- Every failing runInner run has emitted a structured failure log. -/
theorem runInner_err_log (env : Env) (h : (runInner env).1 ≠ none) :
    Event.errorLog ∈ (runInner env).2 := by
  rcases hs : (shutDownNeo env.fleet).1 with _ | es <;>
    rcases hc : env.coldSync with _ | ec <;>
      rcases hcb : env.createBackupResult with _ | eb <;>
        rcases hcp : env.copyResult with _ | ep <;>
          simp [runInner, hs, hc, hcb, hcp, uploadToS3, startNeo_fst] at h ⊢

/-- C9: the process exits 0 iff runOuter reports full success; on any
stage failure it exits 1, and a structured failure log is already in the
trace, all of which precedes the exit itself. -/
theorem C9_exit_code (o : OuterEnv) :
    ((mainRun o).1 = 0 ↔ (runOuter o).1 = none) ∧
    ((runOuter o).1 ≠ none →
      (mainRun o).1 = 1 ∧ Event.errorLog ∈ (runOuter o).2) ∧
    (mainRun o).2 = (runOuter o).2 ++ [Event.exited (mainRun o).1] := by
  rcases hf : o.fleetClientResult with e | fc
  · simp [mainRun, runOuter, hf]
  · rcases hb : o.bucketWriterResult with _ | eb
    · rcases hr : (runInner (o.inner fc)).1 with _ | er
      · simp [mainRun, runOuter, hf, hb, hr]
      · have hlog : Event.errorLog ∈ (runInner (o.inner fc)).2 :=
          runInner_err_log (o.inner fc) (by rw [hr]; exact Option.some_ne_none er)
        simp [mainRun, runOuter, hf, hb, hr, hlog]
    · simp [mainRun, runOuter, hf, hb]

def c9Outer : OuterEnv :=
  ⟨.error "no fleet", none, none, none, none, none, none, ⟨2016, 1, 1, 0, 0, 0⟩, "prod"⟩

/-- C9 witness: a run whose fleet-client construction fails exits 1 with a
failure log in its trace. -/
theorem C9_exit_code_witness :
    (mainRun c9Outer).1 = 1 ∧ Event.errorLog ∈ (runOuter c9Outer).2 :=
  (C9_exit_code c9Outer).2.1 (by decide)

/-- C10: the fleet client and then the bucket writer are acquired before
any backup step: a failure of either construction makes runOuter return
that error with no rsync and no service-state mutation in the trace, and
any run that reaches an rsync has both constructions at the head of its
trace. -/
theorem C10_acquire_before_backup (o : OuterEnv) :
    (∀ e, o.fleetClientResult = .error e →
      (runOuter o).1 = some e ∧
      Event.rsyncCall ∉ (runOuter o).2 ∧
      ∀ n t, Event.setUnitTarget n t ∉ (runOuter o).2) ∧
    (∀ fc e, o.fleetClientResult = .ok fc → o.bucketWriterResult = some e →
      (runOuter o).1 = some e ∧
      Event.rsyncCall ∉ (runOuter o).2 ∧
      ∀ n t, Event.setUnitTarget n t ∉ (runOuter o).2) ∧
    (Event.rsyncCall ∈ (runOuter o).2 →
      ∃ rest, (runOuter o).2 =
        Event.newFleetClientCall :: Event.newBucketWriterCall :: rest) := by
  refine ⟨?_, ?_, ?_⟩
  · intro e he
    simp [runOuter, he]
  · intro fc e hfc he
    simp [runOuter, hfc, he]
  · intro hmem
    rcases hf : o.fleetClientResult with e | fc
    · simp [runOuter, hf] at hmem
    · rcases hb : o.bucketWriterResult with _ | eb
      · exact ⟨(runInner (o.inner fc)).2, by simp [runOuter, hf, hb]⟩
      · simp [runOuter, hf, hb] at hmem

def c10Outer : OuterEnv :=
  ⟨.error "no fleet api", none, none, none, none, none, none, ⟨2016, 1, 1, 0, 0, 0⟩, "prod"⟩

/-- C10 witness: with fleet-client construction failing, runOuter returns
that error and the trace holds no rsync and no target-state request. -/
theorem C10_acquire_before_backup_witness :
    (runOuter c10Outer).1 = some "no fleet api" ∧
    Event.rsyncCall ∉ (runOuter c10Outer).2 ∧
    ∀ n t, Event.setUnitTarget n t ∉ (runOuter c10Outer).2 :=
  (C10_acquire_before_backup c10Outer).1 "no fleet api" rfl
